import Mathlib

/- Verification development for the SCRIP meta fields extractor:
a shallow embedding of src/data_info_extractor.py and proofs about its
type-inference classifier and structural flattener. -/

/-! ## Tabular side: pandas-like series and the Qlik-style inference chain -/

/-- Numeric value of a digit character. -/
def digitVal (c : Char) : Nat := c.toNat - '0'.toNat

/-- Whitespace stripping on both ends of a character list (str.strip). -/
def stripChars (cs : List Char) : List Char :=
  ((cs.dropWhile (fun c => c.isWhitespace)).reverse.dropWhile (fun c => c.isWhitespace)).reverse

/-- Model of str.strip. -/
def pyStrip (s : String) : String := String.mk (stripChars s.toList)

/-- ASCII lowercasing of one character; the token sets and date formats
involved in the claims are ASCII, so the full Unicode lowering of
str.lower is not needed. -/
def lowerChar (c : Char) : Char :=
  if 65 ≤ c.toNat ∧ c.toNat ≤ 90 then Char.ofNat (c.toNat + 32) else c

/-- Model of str.lower. -/
def pyLower (s : String) : String := String.mk (s.toList.map lowerChar)

/-- Natural number denoted by a digit list (most significant digit first). -/
def natOfDigits (cs : List Char) : Nat :=
  cs.foldl (fun acc c => acc * 10 + digitVal c) 0

/-- Model of the elementwise conversion performed by pandas to_numeric:
whitespace-trimmed optional sign, decimal digits, optional fractional part.
Returns the parsed value together with a flag telling whether the literal
was an integer literal (which drives the int64 versus float64 dtype of the
resulting column).  Scientific notation is not modelled; no claim depends
on it. -/
def toNumeric? (s : String) : Option (Rat × Bool) :=
  let cs0 := stripChars s.toList
  let sign : Int := if cs0.head? = some '-' then -1 else 1
  let cs := match cs0 with
    | '+' :: t => t
    | '-' :: t => t
    | t => t
  let intPart := cs.takeWhile (fun c => c.isDigit)
  let rest := cs.dropWhile (fun c => c.isDigit)
  match rest with
  | [] =>
      if intPart.isEmpty then none
      else some (((sign * (natOfDigits intPart : Int) : Int) : Rat), true)
  | '.' :: frac =>
      if frac.all (fun c => c.isDigit) && !(intPart.isEmpty && frac.isEmpty) then
        some ((((sign * ((natOfDigits intPart * 10 ^ frac.length + natOfDigits frac : Nat) : Int)) : Int) : Rat)
                / ((10 : Rat) ^ frac.length), false)
      else none
  | _ => none

/-- Days in a month with Gregorian leap years, as datetime validates. -/
def monthLen (y m : Nat) : Nat :=
  if m = 2 then (if y % 4 = 0 ∧ (y % 100 ≠ 0 ∨ y % 400 = 0) then 29 else 28)
  else if m = 4 ∨ m = 6 ∨ m = 9 ∨ m = 11 then 30 else 31

/-- Date/time components recognised while matching a strptime format. -/
structure TParts where
  year : Nat
  month : Nat
  day : Nat
  hour : Nat
  minute : Nat
  second : Nat
deriving DecidableEq

def setYear (t : TParts) (v : Nat) : TParts := ⟨v, t.month, t.day, t.hour, t.minute, t.second⟩

def setMonth (t : TParts) (v : Nat) : TParts := ⟨t.year, v, t.day, t.hour, t.minute, t.second⟩

def setDay (t : TParts) (v : Nat) : TParts := ⟨t.year, t.month, v, t.hour, t.minute, t.second⟩

def setHour (t : TParts) (v : Nat) : TParts := ⟨t.year, t.month, t.day, v, t.minute, t.second⟩

def setMinute (t : TParts) (v : Nat) : TParts := ⟨t.year, t.month, t.day, t.hour, v, t.second⟩

def setSecond (t : TParts) (v : Nat) : TParts := ⟨t.year, t.month, t.day, t.hour, t.minute, v⟩

/-- Match exactly four digits, the shape of the CPython strptime regex
group for a four-digit year directive. -/
def matchY : List Char → Option (Nat × List Char)
  | a :: b :: c :: d :: rest =>
      if a.isDigit && b.isDigit && c.isDigit && d.isDigit then
        some (digitVal a * 1000 + digitVal b * 100 + digitVal c * 10 + digitVal d, rest)
      else none
  | _ => none

/-- Match a two-digit group accepted by ok2, else one digit accepted by
ok1: the shape of the CPython strptime regexes for month, day, hour,
minute and second directives. -/
def matchTwoOrOne (ok2 ok1 : Nat → Bool) : List Char → Option (Nat × List Char)
  | a :: b :: rest =>
      if a.isDigit && b.isDigit && ok2 (digitVal a * 10 + digitVal b) then
        some (digitVal a * 10 + digitVal b, rest)
      else if a.isDigit && ok1 (digitVal a) then some (digitVal a, b :: rest)
      else none
  | a :: [] =>
      if a.isDigit && ok1 (digitVal a) then some (digitVal a, []) else none
  | [] => none

/-- Interpreter for a strptime format over an input character list.  A
percent directive consumes its digit group, format whitespace consumes one
or more input whitespace characters, any other format character matches
itself, and the whole input must be consumed (strptime raises on
unconverted trailing data). -/
def strptimeLoop : List Char → List Char → TParts → Option TParts
  | [], [], t => some t
  | [], _ :: _, _ => none
  | '%' :: d :: fmtRest, input, t =>
      if d = 'Y' then
        match matchY input with
        | some (v, rest) => strptimeLoop fmtRest rest (setYear t v)
        | none => none
      else if d = 'm' then
        match matchTwoOrOne (fun n => 1 ≤ n && n ≤ 12) (fun n => 1 ≤ n) input with
        | some (v, rest) => strptimeLoop fmtRest rest (setMonth t v)
        | none => none
      else if d = 'd' then
        match matchTwoOrOne (fun n => 1 ≤ n && n ≤ 31) (fun n => 1 ≤ n) input with
        | some (v, rest) => strptimeLoop fmtRest rest (setDay t v)
        | none => none
      else if d = 'H' then
        match matchTwoOrOne (fun n => n ≤ 23) (fun _ => true) input with
        | some (v, rest) => strptimeLoop fmtRest rest (setHour t v)
        | none => none
      else if d = 'M' then
        match matchTwoOrOne (fun n => n ≤ 59) (fun _ => true) input with
        | some (v, rest) => strptimeLoop fmtRest rest (setMinute t v)
        | none => none
      else if d = 'S' then
        match matchTwoOrOne (fun n => n ≤ 59) (fun _ => true) input with
        | some (v, rest) => strptimeLoop fmtRest rest (setSecond t v)
        | none => none
      else if d = '%' then
        match input with
        | '%' :: rest => strptimeLoop fmtRest rest t
        | _ => none
      else none
  | '%' :: [], _, _ => none
  | ' ' :: fmtRest, input, t =>
      if (input.takeWhile (fun c => c.isWhitespace)).isEmpty then none
      else strptimeLoop fmtRest (input.dropWhile (fun c => c.isWhitespace)) t
  | c :: fmtRest, input, t =>
      match input with
      | c2 :: rest => if c2 = c then strptimeLoop fmtRest rest t else none
      | [] => none

/-- Model of datetime.strptime used as a yes/no parse test: match the
whole string against the format, then validate the calendar date the way
the datetime constructor does (year at least one, day within the month;
the component ranges are already enforced by the digit-group matchers;
unmatched components keep strptime defaults 1900-01-01 00:00:00). -/
def strptimeOk (fmt s : String) : Bool :=
  match strptimeLoop fmt.toList s.toList ⟨1900, 1, 1, 0, 0, 0⟩ with
  | none => false
  | some t => if 1 ≤ t.year ∧ t.day ≤ monthLen t.year t.month then true else false

/-- The default date format list of is_date_series. -/
def defaultDateFormats : List String :=
  ["%Y-%m-%d", "%Y/%m/%d", "%Y-%m-%d %H:%M:%S", "%m/%d/%Y"]

/-- Model of can_parse_date: the stripped value parses under at least one
of the configured formats. -/
def can_parse_date (date_formats : List String) (value : String) : Bool :=
  date_formats.any (fun fmt => strptimeOk fmt (pyStrip value))

/-- The non-null values of a raw column, in order (series.dropna). -/
def nonNullVals (vals : List (Option String)) : List String := vals.filterMap id

/-- Model of is_date_series on a raw object column; passing none for the
format list selects the source's default list, as the Python default
argument does. -/
def is_date_series (date_formats : Option (List String)) (vals : List (Option String)) : Bool :=
  (nonNullVals vals).all (fun v => can_parse_date (date_formats.getD defaultDateFormats) v)

/-- Model of is_numeric_series: every non-null value converts. -/
def is_numeric_series (vals : List (Option String)) : Bool :=
  (nonNullVals vals).all (fun v => (toNumeric? v).isSome)

/-- Model of is_boolean_series: every non-null value, lowercased then
stripped, lies in the accepted token set. -/
def is_boolean_series (vals : List (Option String)) : Bool :=
  (nonNullVals vals).all (fun v => ["true", "false", "0", "1"].contains (pyStrip (pyLower v)))

/-- A pandas column, tagged by dtype.  Date columns keep their source text;
the parsed timestamp representation is not needed by any claim. -/
inductive Series
  | obj (vals : List (Option String))
  | bools (vals : List Bool)
  | nums (intDtype : Bool) (vals : List (Option Rat))
  | dates (vals : List (Option String))
deriving DecidableEq

def isObjSeries : Series → Bool
  | .obj _ => true
  | _ => false

/-- The boolean rewrite lambda of the inference loop, str(x).lower() in
the true tokens: it lowercases but does not strip, and a null's string
form ("nan") maps to false. -/
def pyBoolOfCell : Option String → Bool
  | some s => pyLower s = "true" || pyLower s = "1"
  | none => false

/-- Model of pd.to_numeric over the column plus the resulting dtype:
int64 exactly when there are no nulls and every literal is an integer
literal, float64 otherwise. -/
def toNumericSeries (vals : List (Option String)) : Series :=
  Series.nums
    (vals.all (fun v => match v with
      | some s => ((toNumeric? s).map Prod.snd).getD false
      | none => false))
    (vals.map (fun v => v.bind (fun s => (toNumeric? s).map Prod.fst)))

/-- The body of the inference loop for one raw object column: the
boolean, then numeric (with the dual check), then date, then string
precedence.  Returns the transformed column and, in the dual case, the
synthetic companion column holding the original text. -/
def inferObjColumn (fmts : List String) (name : String) (vals : List (Option String)) :
    (String × Series) × Option (String × Series) :=
  if is_boolean_series vals then
    ((name, Series.bools (vals.map pyBoolOfCell)), none)
  else if is_numeric_series vals then
    if is_date_series (some fmts) vals then
      ((name, toNumericSeries vals), some (name ++ "_DualText", Series.obj vals))
    else ((name, toNumericSeries vals), none)
  else if is_date_series (some fmts) vals then
    ((name, Series.dates vals), none)
  else ((name, Series.obj vals), none)

/-- One fold step of apply_qlik_cloud_inference: non-object columns pass
through unchanged; object columns are classified, and dual companion
columns are collected separately because assigning a new column name in
pandas appends it after all existing columns while the loop iterates the
original column index only. -/
def qcStep (fmts : List String) (acc : List (String × Series) × List (String × Series))
    (col : String × Series) : List (String × Series) × List (String × Series) :=
  match col with
  | (name, Series.obj vals) =>
      let r := inferObjColumn fmts name vals
      (acc.1 ++ [r.1], acc.2 ++ r.2.toList)
  | c => (acc.1 ++ [c], acc.2)

/-- Model of apply_qlik_cloud_inference.  The source calls is_date_series
with its default format list; the list is exposed here as a parameter
matching the configurable dateFormats surface, and instantiating it with
defaultDateFormats gives the source's literal behaviour. -/
def apply_qlik_cloud_inference (fmts : List String) (df : List (String × Series)) :
    List (String × Series) :=
  let r := df.foldl (qcStep fmts) ([], [])
  r.1 ++ r.2

/-- Model of infer_data_type_for_series: dtype-driven classification after
the inference pass. -/
def infer_data_type_for_series : Series → String
  | .bools _ => "Boolean"
  | .nums _ _ => "Numeric"
  | .dates _ => "Date/Time"
  | .obj _ => "String"

/-- A scalar cell as it reaches the report, before textual interpolation. -/
inductive PyScalar
  | pbool (b : Bool)
  | pnum (q : Rat) (intDtype : Bool)
  | pstr (s : String)
  | pdate (s : String)
deriving DecidableEq

def seriesNonNull : Series → List PyScalar
  | .obj vals => (nonNullVals vals).map PyScalar.pstr
  | .bools vals => vals.map PyScalar.pbool
  | .nums intDtype vals => (vals.filterMap id).map (fun q => PyScalar.pnum q intDtype)
  | .dates vals => (nonNullVals vals).map PyScalar.pdate

/-- Model of get_random_example_tabular: random.choice over the non-null
values is modelled by an externally supplied pick index reduced modulo
their count; an empty selection yields the placeholder. -/
def get_random_example_tabular (pick : Nat) (s : Series) : PyScalar :=
  let nn := seriesNonNull s
  if nn.isEmpty then PyScalar.pstr "N/A"
  else nn.getD (pick % nn.length) (PyScalar.pstr "N/A")

/-- Model of str.endswith. -/
def pyEndsWith (s suffix : String) : Bool :=
  suffix.toList == s.toList.drop (s.toList.length - suffix.toList.length)

/-- One row of process_tabular: a column whose name ends in _DualText is
rendered with the dual annotation and a hardcoded String type, any other
column carries its inferred dtype; both carry a sampled example. -/
def tabRecord (pick : Nat) (col : String × Series) : String × String × PyScalar :=
  if pyEndsWith col.1 "_DualText" then
    (col.1 ++ " (Dual string representation)", "String", get_random_example_tabular pick col.2)
  else
    (col.1, infer_data_type_for_series col.2, get_random_example_tabular pick col.2)

def processTabAux (choose : Nat → Nat) : Nat → List (String × Series) → List (String × String × PyScalar)
  | _, [] => []
  | i, col :: rest => tabRecord (choose i) col :: processTabAux choose (i + 1) rest

/-- Model of process_tabular at record level: one (path, type, example)
triple per column, in column order; the source interpolates these triples
into semicolon-joined report lines. -/
def process_tabular_records (choose : Nat → Nat) (df : List (String × Series)) :
    List (String × String × PyScalar) :=
  processTabAux choose 0 df

example : toNumeric? "2020" = some (2020, true) := by decide
example : (toNumeric? "10.5").map Prod.snd = some false := by decide
example : (toNumeric? "1.").isSome = true := by decide
example : (toNumeric? ".").isSome = false := by decide
example : toNumeric? "x" = none := by decide
example : strptimeOk "%Y-%m-%d" "2020-01-31" = true := by decide
example : strptimeOk "%Y-%m-%d" "2020-02-30" = false := by decide
example : strptimeOk "%Y" "2020" = true := by decide
example : strptimeOk "%m/%d/%Y" "1/31/2020" = true := by decide
example : strptimeOk "%Y-%m-%d %H:%M:%S" "2020-01-01 23:59:00" = true := by decide
example : strptimeOk "%Y-%m-%d" "2020-01-01x" = false := by decide
example : is_boolean_series [some " true ", some "FALSE", some "1", none] = true := by decide
example : is_boolean_series [some "yes"] = false := by decide
example : pyBoolOfCell (some " true ") = false := by decide
example : pyBoolOfCell (some "TRUE") = true := by decide
example : pyBoolOfCell none = false := by decide
example : pyEndsWith "A_DualText" "_DualText" = true := by decide
example : pyEndsWith "A" "_DualText" = false := by decide

-- scratch: the C1 counterexample frame (dual column followed by a string column)
example :
    process_tabular_records (fun k => if k = 2 then 1 else 0)
      (apply_qlik_cloud_inference ["%Y"]
        [("A", Series.obj [some "2020", some "2021"]), ("B", Series.obj [some "x", some "y"])])
    = [("A", "Numeric", PyScalar.pnum 2020 true),
       ("B", "String", PyScalar.pstr "x"),
       ("A_DualText (Dual string representation)", "String", PyScalar.pstr "2021")] := by decide

-- scratch: the C2 counterexample (padded token classified Boolean but rewritten to false)
example :
    apply_qlik_cloud_inference defaultDateFormats [("c", Series.obj [some " true "])]
      = [("c", Series.bools [false])] := by decide

-- scratch: the C3 counterexample (all-null column)
example :
    process_tabular_records (fun _ => 0)
      (apply_qlik_cloud_inference defaultDateFormats [("c", Series.obj [none, none])])
      = [("c", "Boolean", PyScalar.pbool false)] := by decide

/-! ## Semi-structured side: decoded Python values and the flattener -/

mutual
/-- A decoded Python value as the flattener receives it: null, booleans,
numbers (modelled as integers; no claim depends on float detail), text,
lists, string-keyed dicts in insertion order, and vother for a value of
any unrecognised type, carrying its textual form str(obj). -/
inductive PyValue
  | vnone : PyValue
  | vbool : Bool → PyValue
  | vint : Int → PyValue
  | vstr : String → PyValue
  | vother : String → PyValue
  | vlist : PyList → PyValue
  | vdict : PyDict → PyValue

/-- A Python list of values (bespoke list type so that all recursion over
the value tree is structural). -/
inductive PyList
  | nil : PyList
  | cons : PyValue → PyList → PyList

/-- A Python dict, keys in insertion order. -/
inductive PyDict
  | nil : PyDict
  | cons : String → PyValue → PyDict → PyDict
end

def isinstance_bool : PyValue → Bool
  | .vbool _ => true
  | _ => false

/-- Python's bool is a subclass of int, so a boolean also satisfies the
numeric isinstance test; the source relies on testing bool first. -/
def isinstance_int_or_float : PyValue → Bool
  | .vbool _ => true
  | .vint _ => true
  | _ => false

def isinstance_str : PyValue → Bool
  | .vstr _ => true
  | _ => false

def isinstance_list : PyValue → Bool
  | .vlist _ => true
  | _ => false

def isinstance_dict : PyValue → Bool
  | .vdict _ => true
  | _ => false

/-- Model of infer_data_type: the isinstance chain of the source, in
order.  None and unrecognised objects fall through to Unknown. -/
def infer_data_type (v : PyValue) : String :=
  if isinstance_bool v then "Boolean"
  else if isinstance_int_or_float v then "Numeric"
  else if isinstance_str v then "String"
  else if isinstance_list v then "List"
  else if isinstance_dict v then "Object"
  else "Unknown"

/-- Textual form (str) of a value as interpolated into a report line.
Containers never reach the interpolation (the flattener recurses into
them first), so their rendering is a stub. -/
def pyStr : PyValue → String
  | .vnone => "None"
  | .vbool true => "True"
  | .vbool false => "False"
  | .vint n => toString n
  | .vstr s => s
  | .vother r => r
  | .vlist _ => "<list>"
  | .vdict _ => "<dict>"

/-- The example put on a leaf line: the value itself, or the placeholder
for null. -/
def leafExample : PyValue → String
  | .vnone => "N/A"
  | v => pyStr v

/-- Path of a dict member: dotted unless the parent prefix is empty. -/
def joinKey (parent k : String) : String :=
  if parent = "" then k else parent ++ "." ++ k

/-- One rendered report line, the f-string of the source. -/
def mkLine (path dtype ex : String) : String :=
  path ++ ";" ++ dtype ++ ";" ++ ex

mutual
/-- Model of process_semi_structured: depth-first pre-order walk emitting
one line per scalar leaf. -/
def process_semi_structured : PyValue → String → List String
  | .vdict fields, parent => psDict fields parent
  | .vlist items, parent => psList items 0 parent
  | v, parent => [mkLine parent (infer_data_type v) (leafExample v)]

/-- Dict members in insertion order, dotted paths. -/
def psDict : PyDict → String → List String
  | .nil, _ => []
  | .cons k v rest, parent => process_semi_structured v (joinKey parent k) ++ psDict rest parent

/-- List elements in index order, bracketed paths. -/
def psList : PyList → Nat → String → List String
  | .nil, _, _ => []
  | .cons v rest, i, parent =>
      process_semi_structured v (parent ++ "[" ++ toString i ++ "]") ++ psList rest (i + 1) parent
end

/-- Split a character list at its first semicolon. -/
def splitAtFirstSemi : List Char → Option (List Char × List Char)
  | [] => none
  | c :: rest =>
      if c = ';' then some ([], rest)
      else match splitAtFirstSemi rest with
        | some (a, b) => some (c :: a, b)
        | none => none

/-- Model of line.split(two-split limit): the first two semicolon-separated
segments and the untouched remainder.  Lines produced by the flattener
always contain at least two semicolons; the fallback arms for shorter
inputs are unreachable there (Python's tuple unpacking would raise). -/
def pySplit2 (line : String) : String × String × String :=
  match splitAtFirstSemi line.toList with
  | none => (line, "", "")
  | some (a, rest) =>
      match splitAtFirstSemi rest with
      | none => (String.mk a, String.mk rest, "")
      | some (b, rest2) => (String.mk a, String.mk b, String.mk rest2)

/-- One step of the top-level-array dedup: key the line by its first split
segment and keep only the first occurrence of each key. -/
def dedupStep (seen : List (String × String × String)) (line : String) :
    List (String × String × String) :=
  let fde := pySplit2 line
  if seen.any (fun r => r.1 = fde.1) then seen else seen ++ [fde]

/-- The dedup loop over the top-level array: each element is flattened
with an empty path prefix and its lines are folded into the seen map in
insertion order. -/
def dedupFold : PyList → List (String × String × String) → List (String × String × String)
  | .nil, seen => seen
  | .cons item rest, seen => dedupFold rest ((process_semi_structured item "").foldl dedupStep seen)

/-- Rebuild a report line from a (field, dtype, example) entry. -/
def renderRec (r : String × String × String) : String := mkLine r.1 r.2.1 r.2.2

/-- Model of process_semi_structured_data on an already-decoded value (the
JSON-file-path branch belongs to the excluded loading collaborator): a
top-level list is flattened elementwise and deduplicated first-wins, any
other value is flattened directly. -/
def process_semi_structured_data : PyValue → List String
  | .vlist items => (dedupFold items .nil).map renderRec
  | v => process_semi_structured v ""

/-! ## Record-level views used to state the claims -/

mutual
/-- Record-level flattener following the spec's flattening contract:
object members in insertion order under dotted paths, array elements in
index order under bracketed paths, one (path, type, example) record per
scalar leaf. -/
def flattenSpecRecords : PyValue → String → List (String × String × String)
  | .vdict fields, parent => fsDict fields parent
  | .vlist items, parent => fsList items 0 parent
  | v, parent => [(parent, infer_data_type v, leafExample v)]

def fsDict : PyDict → String → List (String × String × String)
  | .nil, _ => []
  | .cons k v rest, parent => flattenSpecRecords v (joinKey parent k) ++ fsDict rest parent

def fsList : PyList → Nat → String → List (String × String × String)
  | .nil, _, _ => []
  | .cons v rest, i, parent =>
      flattenSpecRecords v (parent ++ "[" ++ toString i ++ "]") ++ fsList rest (i + 1) parent
end

mutual
/-- The scalar leaves of a value, in depth-first pre-order. -/
def leaves : PyValue → List PyValue
  | .vdict fields => leavesDict fields
  | .vlist items => leavesList items
  | v => [v]

def leavesDict : PyDict → List PyValue
  | .nil => []
  | .cons _ v rest => leaves v ++ leavesDict rest

def leavesList : PyList → List PyValue
  | .nil => []
  | .cons v rest => leaves v ++ leavesList rest
end

/-- Flatten every element of a top-level array with an empty prefix, in
element order, without dedup. -/
def flattenAll : PyList → List (String × String × String)
  | .nil => []
  | .cons v rest => flattenSpecRecords v "" ++ flattenAll rest

/-- First-wins merge of records keyed by path, the policy the spec
describes for top-level arrays. -/
def fwStep (acc : List (String × String × String)) (r : String × String × String) :
    List (String × String × String) :=
  if acc.any (fun x => x.1 = r.1) then acc else acc ++ [r]

def firstWinsByPath (recs : List (String × String × String)) : List (String × String × String) :=
  recs.foldl fwStep []

-- scratch: flattening and dedup behave like the Python source
example :
    process_semi_structured
      (.vdict (.cons "a" (.vdict (.cons "b" (.vint 1)
        (.cons "c" (.vlist (.cons (.vint 2) (.cons (.vint 3) .nil))) .nil))) .nil)) ""
    = ["a.b;Numeric;1", "a.c[0];Numeric;2", "a.c[1];Numeric;3"] := by decide

example :
    process_semi_structured_data
      (.vlist (.cons (.vdict (.cons "x" (.vint 1) .nil))
        (.cons (.vdict (.cons "x" (.vint 2) .nil))
          (.cons (.vdict (.cons "y" (.vint 3) .nil)) .nil))))
    = ["x;Numeric;1", "y;Numeric;3"] := by decide

example :
    process_semi_structured_data
      (.vlist (.cons (.vdict (.cons "a;x" (.vint 1) .nil))
        (.cons (.vdict (.cons "a;y" (.vint 2) .nil)) .nil)))
    = ["a;x;Numeric;1"] := by decide

example :
    process_semi_structured_data
      (.vdict (.cons "a" (.vdict (.cons "b" (.vint 1) .nil)) (.cons "a.b" (.vint 2) .nil)))
    = ["a.b;Numeric;1", "a.b;Numeric;2"] := by decide

example : process_semi_structured_data (.vother "<Foo object>") = [";Unknown;<Foo object>"] := by decide

example : pySplit2 "a;b;String;x;y" = ("a", "b", "String;x;y") := by decide

/-! ## Helper lemmas -/

mutual
/-- The line flattener is the record flattener followed by rendering. -/
theorem ps_eq_render : ∀ (v : PyValue) (p : String),
    process_semi_structured v p = (flattenSpecRecords v p).map renderRec
  | .vdict fields, p => psDict_eq_render fields p
  | .vlist items, p => psList_eq_render items 0 p
  | .vnone, _ => rfl
  | .vbool _, _ => rfl
  | .vint _, _ => rfl
  | .vstr _, _ => rfl
  | .vother _, _ => rfl

theorem psDict_eq_render : ∀ (fields : PyDict) (p : String),
    psDict fields p = (fsDict fields p).map renderRec
  | .nil, _ => rfl
  | .cons k v rest, p => by
      show process_semi_structured v (joinKey p k) ++ psDict rest p
          = (flattenSpecRecords v (joinKey p k) ++ fsDict rest p).map renderRec
      rw [List.map_append, ps_eq_render v (joinKey p k), psDict_eq_render rest p]

theorem psList_eq_render : ∀ (items : PyList) (i : Nat) (p : String),
    psList items i p = (fsList items i p).map renderRec
  | .nil, _, _ => rfl
  | .cons v rest, i, p => by
      show process_semi_structured v (p ++ "[" ++ toString i ++ "]") ++ psList rest (i + 1) p
          = (flattenSpecRecords v (p ++ "[" ++ toString i ++ "]") ++ fsList rest (i + 1) p).map renderRec
      rw [List.map_append, ps_eq_render, psList_eq_render rest (i + 1) p]
end

mutual
/-- Each scalar leaf yields exactly one record. -/
theorem flatten_length : ∀ (v : PyValue) (p : String),
    (flattenSpecRecords v p).length = (leaves v).length
  | .vdict fields, p => fsDict_length fields p
  | .vlist items, p => fsList_length items 0 p
  | .vnone, _ => rfl
  | .vbool _, _ => rfl
  | .vint _, _ => rfl
  | .vstr _, _ => rfl
  | .vother _, _ => rfl

theorem fsDict_length : ∀ (fields : PyDict) (p : String),
    (fsDict fields p).length = (leavesDict fields).length
  | .nil, _ => rfl
  | .cons k v rest, p => by
      show (flattenSpecRecords v (joinKey p k) ++ fsDict rest p).length
          = (leaves v ++ leavesDict rest).length
      rw [List.length_append, List.length_append, flatten_length, fsDict_length]

theorem fsList_length : ∀ (items : PyList) (i : Nat) (p : String),
    (fsList items i p).length = (leavesList items).length
  | .nil, _, _ => rfl
  | .cons v rest, i, p => by
      show (flattenSpecRecords v (p ++ "[" ++ toString i ++ "]") ++ fsList rest (i + 1) p).length
          = (leaves v ++ leavesList rest).length
      rw [List.length_append, List.length_append, flatten_length, fsList_length]
end

theorem splitAtFirstSemi_append (a rest : List Char) (h : ';' ∉ a) :
    splitAtFirstSemi (a ++ ';' :: rest) = some (a, rest) := by
  induction a with
  | nil => rfl
  | cons c t ih =>
      have hc : ¬ c = ';' := fun e => h (e ▸ List.mem_cons_self c t)
      have ht : ';' ∉ t := fun m => h (List.mem_cons_of_mem c m)
      show splitAtFirstSemi (c :: (t ++ ';' :: rest)) = some (c :: t, rest)
      rw [splitAtFirstSemi]
      simp [hc, ih ht]

/-- Splitting a rendered line with a semicolon-free path and type
recovers the record, whatever the example contains. -/
theorem pySplit2_mkLine (p d e : String) (hp : ';' ∉ p.toList) (hd : ';' ∉ d.toList) :
    pySplit2 (mkLine p d e) = (p, d, e) := by
  have h1 : (mkLine p d e).data = p.data ++ ';' :: (d.data ++ ';' :: e.data) := by
    show (p ++ ";" ++ d ++ ";" ++ e).data = _
    simp [String.data_append]
  have h2 : splitAtFirstSemi (mkLine p d e).toList = some (p.data, d.data ++ ';' :: e.data) := by
    show splitAtFirstSemi (mkLine p d e).data = _
    rw [h1]
    exact splitAtFirstSemi_append _ _ hp
  have h3 : splitAtFirstSemi (d.data ++ ';' :: e.data) = some (d.data, e.data) :=
    splitAtFirstSemi_append _ _ hd
  unfold pySplit2
  simp only [h2, h3]

/-- infer_data_type only returns the six fixed labels, none of which
contains the delimiter. -/
theorem infer_data_type_no_semi (v : PyValue) : ';' ∉ (infer_data_type v).toList := by
  cases v with
  | vnone => decide
  | vbool b => show ';' ∉ ("Boolean" : String).toList; decide
  | vint n => show ';' ∉ ("Numeric" : String).toList; decide
  | vstr s => show ';' ∉ ("String" : String).toList; decide
  | vother s => show ';' ∉ ("Unknown" : String).toList; decide
  | vlist items => show ';' ∉ ("List" : String).toList; decide
  | vdict fields => show ';' ∉ ("Object" : String).toList; decide

mutual
/-- The type field of every flattened record is an infer_data_type label. -/
theorem flatten_type_no_semi : ∀ (v : PyValue) (p : String) (r : String × String × String),
    r ∈ flattenSpecRecords v p → ';' ∉ r.2.1.toList
  | .vdict fields, p, r, h => fsDict_type_no_semi fields p r h
  | .vlist items, p, r, h => fsList_type_no_semi items 0 p r h
  | .vnone, p, r, h => by
      rw [List.mem_singleton.mp h]; exact infer_data_type_no_semi .vnone
  | .vbool b, p, r, h => by
      rw [List.mem_singleton.mp h]; exact infer_data_type_no_semi (.vbool b)
  | .vint n, p, r, h => by
      rw [List.mem_singleton.mp h]; exact infer_data_type_no_semi (.vint n)
  | .vstr s, p, r, h => by
      rw [List.mem_singleton.mp h]; exact infer_data_type_no_semi (.vstr s)
  | .vother s, p, r, h => by
      rw [List.mem_singleton.mp h]; exact infer_data_type_no_semi (.vother s)

theorem fsDict_type_no_semi : ∀ (fields : PyDict) (p : String) (r : String × String × String),
    r ∈ fsDict fields p → ';' ∉ r.2.1.toList
  | .cons k v rest, p, r, h => by
      have h2 : r ∈ flattenSpecRecords v (joinKey p k) ++ fsDict rest p := h
      rcases List.mem_append.mp h2 with h3 | h3
      · exact flatten_type_no_semi v (joinKey p k) r h3
      · exact fsDict_type_no_semi rest p r h3

theorem fsList_type_no_semi : ∀ (items : PyList) (i : Nat) (p : String) (r : String × String × String),
    r ∈ fsList items i p → ';' ∉ r.2.1.toList
  | .cons v rest, i, p, r, h => by
      have h2 : r ∈ flattenSpecRecords v (p ++ "[" ++ toString i ++ "]") ++ fsList rest (i + 1) p := h
      rcases List.mem_append.mp h2 with h3 | h3
      · exact flatten_type_no_semi v (p ++ "[" ++ toString i ++ "]") r h3
      · exact fsList_type_no_semi rest (i + 1) p r h3
end

/-- Folding rendered lines through the source dedup step is the same as
folding the records through the first-wins step, as long as paths and
types are delimiter-free. -/
theorem foldl_dedup_map (recs : List (String × String × String))
    (h : ∀ r ∈ recs, ';' ∉ r.1.toList ∧ ';' ∉ r.2.1.toList) :
    ∀ seen, (recs.map renderRec).foldl dedupStep seen = recs.foldl fwStep seen := by
  induction recs with
  | nil => intro seen; rfl
  | cons r rs ih =>
      intro seen
      have hr := h r (List.mem_cons_self r rs)
      have hstep : dedupStep seen (renderRec r) = fwStep seen r := by
        unfold dedupStep fwStep
        rw [show pySplit2 (renderRec r) = r by
          rw [show renderRec r = mkLine r.1 r.2.1 r.2.2 from rfl, pySplit2_mkLine r.1 r.2.1 r.2.2 hr.1 hr.2]]
      show (rs.map renderRec).foldl dedupStep (dedupStep seen (renderRec r)) = rs.foldl fwStep (fwStep seen r)
      rw [hstep, ih (fun x hx => h x (List.mem_cons_of_mem r hx))]

/-- The dedup loop over a top-level array is the first-wins fold over the
concatenated per-element record lists, for delimiter-free paths. -/
theorem dedupFold_eq_fw : ∀ (items : PyList),
    (∀ r ∈ flattenAll items, ';' ∉ r.1.toList) →
    ∀ seen, dedupFold items seen = (flattenAll items).foldl fwStep seen
  | .nil, _, seen => rfl
  | .cons v rest, h, seen => by
      have hv : ∀ r ∈ flattenSpecRecords v "", ';' ∉ r.1.toList ∧ ';' ∉ r.2.1.toList := by
        intro r hr
        refine ⟨h r ?_, flatten_type_no_semi v "" r hr⟩
        show r ∈ flattenSpecRecords v "" ++ flattenAll rest
        exact List.mem_append.mpr (Or.inl hr)
      have hrest : ∀ r ∈ flattenAll rest, ';' ∉ r.1.toList := by
        intro r hr
        refine h r ?_
        show r ∈ flattenSpecRecords v "" ++ flattenAll rest
        exact List.mem_append.mpr (Or.inr hr)
      show dedupFold rest ((process_semi_structured v "").foldl dedupStep seen)
          = (flattenSpecRecords v "" ++ flattenAll rest).foldl fwStep seen
      rw [List.foldl_append, ps_eq_render v "", foldl_dedup_map _ hv seen,
        dedupFold_eq_fw rest hrest ((flattenSpecRecords v "").foldl fwStep seen)]

/-- The first-wins step keeps the key list duplicate-free. -/
theorem fwStep_nodup (seen : List (String × String × String)) (r : String × String × String)
    (h : (seen.map (fun x => x.1)).Nodup) : ((fwStep seen r).map (fun x => x.1)).Nodup := by
  unfold fwStep
  by_cases hmem : seen.any (fun x => x.1 = r.1)
  · simp [hmem, h]
  · have hnot : r.1 ∉ seen.map (fun x => x.1) := by
      intro hc
      rcases List.mem_map.mp hc with ⟨x, hx, he⟩
      exact hmem (List.any_eq_true.mpr ⟨x, hx, by simp [he]⟩)
    simp only [hmem, Bool.false_eq_true, if_false, List.map_append]
    rw [List.nodup_append]
    refine ⟨h, List.nodup_singleton _, ?_⟩
    intro a ha hb
    rw [show ([r].map (fun x => x.1)) = [r.1] from rfl, List.mem_singleton] at hb
    exact hnot (hb ▸ ha)

theorem foldl_fwStep_nodup (recs : List (String × String × String)) :
    ∀ seen, (seen.map (fun x => x.1)).Nodup →
    ((recs.foldl fwStep seen).map (fun x => x.1)).Nodup := by
  induction recs with
  | nil => intro seen h; exact h
  | cons r rs ih => intro seen h; exact ih (fwStep seen r) (fwStep_nodup seen r h)

/-- The source dedup step also keeps keys duplicate-free (no cleanliness
assumption: whatever the split yields is the key). -/
theorem dedupStep_nodup (seen : List (String × String × String)) (line : String)
    (h : (seen.map (fun x => x.1)).Nodup) : ((dedupStep seen line).map (fun x => x.1)).Nodup := by
  unfold dedupStep
  by_cases hmem : seen.any (fun x => x.1 = (pySplit2 line).1)
  · simp [hmem, h]
  · have hnot : (pySplit2 line).1 ∉ seen.map (fun x => x.1) := by
      intro hc
      rcases List.mem_map.mp hc with ⟨x, hx, he⟩
      exact hmem (List.any_eq_true.mpr ⟨x, hx, by simp [he]⟩)
    simp only [hmem, Bool.false_eq_true, if_false, List.map_append]
    rw [List.nodup_append]
    refine ⟨h, List.nodup_singleton _, ?_⟩
    intro a ha hb
    rw [show ([pySplit2 line].map (fun x => x.1)) = [(pySplit2 line).1] from rfl,
      List.mem_singleton] at hb
    exact hnot (hb ▸ ha)

theorem foldl_dedupStep_nodup (lines : List String) :
    ∀ seen, (seen.map (fun x => x.1)).Nodup →
    ((lines.foldl dedupStep seen).map (fun x => x.1)).Nodup := by
  induction lines with
  | nil => intro seen h; exact h
  | cons l ls ih => intro seen h; exact ih (dedupStep seen l) (dedupStep_nodup seen l h)

theorem dedupFold_nodup : ∀ (items : PyList) (seen : List (String × String × String)),
    (seen.map (fun x => x.1)).Nodup → ((dedupFold items seen).map (fun x => x.1)).Nodup
  | .nil, _, h => h
  | .cons v rest, seen, h =>
      dedupFold_nodup rest _ (foldl_dedupStep_nodup (process_semi_structured v "") seen h)

theorem foldl_qcStep_non_obj (fmts : List String) :
    ∀ (rest : List (String × Series)) (main duals : List (String × Series)),
    (∀ c ∈ rest, isObjSeries c.2 = false) →
    rest.foldl (qcStep fmts) (main, duals) = (main ++ rest, duals)
  | [], main, duals, _ => by simp
  | c :: rs, main, duals, h => by
      have hc : isObjSeries c.2 = false := h c (List.mem_cons_self c rs)
      have hstep : qcStep fmts (main, duals) c = (main ++ [c], duals) := by
        rcases c with ⟨name, s⟩
        cases s with
        | obj vals => simp [isObjSeries] at hc
        | bools vals => rfl
        | nums i vals => rfl
        | dates vals => rfl
      show rs.foldl (qcStep fmts) (qcStep fmts (main, duals) c) = (main ++ c :: rs, duals)
      rw [hstep,
        foldl_qcStep_non_obj fmts rs (main ++ [c]) duals (fun x hx => h x (List.mem_cons_of_mem c hx))]
      simp

theorem processTabAux_append (choose : Nat → Nat) :
    ∀ (l l2 : List (String × Series)) (i : Nat),
    processTabAux choose i (l ++ l2)
      = processTabAux choose i l ++ processTabAux choose (i + l.length) l2
  | [], l2, i => by simp [processTabAux]
  | c :: rs, l2, i => by
      show tabRecord (choose i) c :: processTabAux choose (i + 1) (rs ++ l2)
          = (tabRecord (choose i) c :: processTabAux choose (i + 1) rs)
            ++ processTabAux choose (i + (c :: rs).length) l2
      rw [processTabAux_append choose rs l2 (i + 1)]
      have hlen : i + 1 + rs.length = i + (c :: rs).length := by
        simp [List.length_cons]
        omega
      rw [hlen]
      simp

theorem pyEndsWith_append_self (s t : String) : pyEndsWith (s ++ t) t = true := by
  show (t.data == (s ++ t).data.drop ((s ++ t).data.length - t.data.length)) = true
  rw [String.data_append, List.length_append, Nat.add_sub_cancel, List.drop_left]
  exact beq_self_eq_true t.data

theorem filterMap_id_replicate_none (n : Nat) :
    (List.replicate n (none : Option String)).filterMap id = [] := by
  induction n with
  | zero => rfl
  | succ k ih => simp [List.replicate_succ, List.filterMap_cons, ih]

mutual
/-- Every record's example comes from a leaf of the value. -/
theorem flatten_example_leaf : ∀ (v : PyValue) (p : String) (r : String × String × String),
    r ∈ flattenSpecRecords v p → ∃ s, s ∈ leaves v ∧ r.2.2 = leafExample s
  | .vdict fields, p, r, h => fsDict_example_leaf fields p r h
  | .vlist items, p, r, h => fsList_example_leaf items 0 p r h
  | .vnone, p, r, h => ⟨.vnone, List.mem_singleton.mpr rfl, by rw [List.mem_singleton.mp h]⟩
  | .vbool b, p, r, h => ⟨.vbool b, List.mem_singleton.mpr rfl, by rw [List.mem_singleton.mp h]⟩
  | .vint n, p, r, h => ⟨.vint n, List.mem_singleton.mpr rfl, by rw [List.mem_singleton.mp h]⟩
  | .vstr s, p, r, h => ⟨.vstr s, List.mem_singleton.mpr rfl, by rw [List.mem_singleton.mp h]⟩
  | .vother s, p, r, h => ⟨.vother s, List.mem_singleton.mpr rfl, by rw [List.mem_singleton.mp h]⟩

theorem fsDict_example_leaf : ∀ (fields : PyDict) (p : String) (r : String × String × String),
    r ∈ fsDict fields p → ∃ s, s ∈ leavesDict fields ∧ r.2.2 = leafExample s
  | .cons k v rest, p, r, h => by
      have h2 : r ∈ flattenSpecRecords v (joinKey p k) ++ fsDict rest p := h
      rcases List.mem_append.mp h2 with h3 | h3
      · rcases flatten_example_leaf v (joinKey p k) r h3 with ⟨s, hs, he⟩
        exact ⟨s, by show s ∈ leaves v ++ leavesDict rest; exact List.mem_append.mpr (Or.inl hs), he⟩
      · rcases fsDict_example_leaf rest p r h3 with ⟨s, hs, he⟩
        exact ⟨s, by show s ∈ leaves v ++ leavesDict rest; exact List.mem_append.mpr (Or.inr hs), he⟩

theorem fsList_example_leaf : ∀ (items : PyList) (i : Nat) (p : String) (r : String × String × String),
    r ∈ fsList items i p → ∃ s, s ∈ leavesList items ∧ r.2.2 = leafExample s
  | .cons v rest, i, p, r, h => by
      have h2 : r ∈ flattenSpecRecords v (p ++ "[" ++ toString i ++ "]") ++ fsList rest (i + 1) p := h
      rcases List.mem_append.mp h2 with h3 | h3
      · rcases flatten_example_leaf v _ r h3 with ⟨s, hs, he⟩
        exact ⟨s, by show s ∈ leaves v ++ leavesList rest; exact List.mem_append.mpr (Or.inl hs), he⟩
      · rcases fsList_example_leaf rest (i + 1) p r h3 with ⟨s, hs, he⟩
        exact ⟨s, by show s ∈ leaves v ++ leavesList rest; exact List.mem_append.mpr (Or.inr hs), he⟩
end

/-! ## Claim C1: the dual (numeric plus date-like) column -/

/-- C1 (amended): a raw textual column that fails the boolean test, whose
non-null values all parse as floats and whose values all match a
configured date pattern, yields exactly two FieldRecords: the numeric
record at the column's original position under the column's name, and a
String record for the synthetic companion column, rendered under
path <name>_DualText (Dual string representation) and carrying the
original text, appended after all of the frame's columns.  The numeric
record precedes the companion but the two need not be adjacent, and their
examples are sampled independently. -/
theorem claim_C1_dual_layout (fmts : List String) (name : String) (vals : List (Option String))
    (rest : List (String × Series)) (choose : Nat → Nat)
    (hname : pyEndsWith name "_DualText" = false)
    (hb : is_boolean_series vals = false)
    (hn : is_numeric_series vals = true)
    (hd : is_date_series (some fmts) vals = true)
    (hrest : ∀ c ∈ rest, isObjSeries c.2 = false) :
    process_tabular_records choose (apply_qlik_cloud_inference fmts ((name, Series.obj vals) :: rest))
      = (name, "Numeric", get_random_example_tabular (choose 0) (toNumericSeries vals))
          :: processTabAux choose 1 rest
          ++ [(name ++ "_DualText" ++ " (Dual string representation)", "String",
               get_random_example_tabular (choose (rest.length + 1)) (Series.obj vals))] := by
  have hinfer : inferObjColumn fmts name vals
      = ((name, toNumericSeries vals), some (name ++ "_DualText", Series.obj vals)) := by
    unfold inferObjColumn
    rw [hb, hn, hd]
    simp
  have hdf : apply_qlik_cloud_inference fmts ((name, Series.obj vals) :: rest)
      = (name, toNumericSeries vals) :: (rest ++ [(name ++ "_DualText", Series.obj vals)]) := by
    unfold apply_qlik_cloud_inference
    show (rest.foldl (qcStep fmts) (qcStep fmts ([], []) (name, Series.obj vals))).1
        ++ (rest.foldl (qcStep fmts) (qcStep fmts ([], []) (name, Series.obj vals))).2 = _
    have hfirst : qcStep fmts ([], []) (name, Series.obj vals)
        = ([(name, toNumericSeries vals)], [(name ++ "_DualText", Series.obj vals)]) := by
      show (([] : List (String × Series)) ++ [(inferObjColumn fmts name vals).1],
        ([] : List (String × Series)) ++ (inferObjColumn fmts name vals).2.toList) = _
      rw [hinfer]
      simp
    rw [hfirst, foldl_qcStep_non_obj fmts rest _ _ hrest]
    simp
  rw [hdf]
  show tabRecord (choose 0) (name, toNumericSeries vals)
      :: processTabAux choose 1 (rest ++ [(name ++ "_DualText", Series.obj vals)]) = _
  rw [processTabAux_append choose rest _ 1]
  have hfirstrec : tabRecord (choose 0) (name, toNumericSeries vals)
      = (name, "Numeric", get_random_example_tabular (choose 0) (toNumericSeries vals)) := by
    unfold tabRecord
    rw [hname]
    simp [infer_data_type_for_series, toNumericSeries]
  have hlastrec : processTabAux choose (1 + rest.length) [(name ++ "_DualText", Series.obj vals)]
      = [(name ++ "_DualText" ++ " (Dual string representation)", "String",
          get_random_example_tabular (choose (rest.length + 1)) (Series.obj vals))] := by
    show [tabRecord (choose (1 + rest.length)) (name ++ "_DualText", Series.obj vals)] = _
    unfold tabRecord
    rw [pyEndsWith_append_self name "_DualText"]
    simp [Nat.add_comm 1 rest.length]
  rw [hfirstrec, hlastrec]
  simp

/-- C1 witness: a concrete one-column dual frame with a trailing
non-object column, with every hypothesis discharged by evaluation. -/
theorem claim_C1_witness :
    (pyEndsWith "A" "_DualText" = false
      ∧ is_boolean_series [some "2020"] = false
      ∧ is_numeric_series [some "2020"] = true
      ∧ is_date_series (some ["%Y"]) [some "2020"] = true)
    ∧ process_tabular_records (fun _ => 0)
        (apply_qlik_cloud_inference ["%Y"] [("A", Series.obj [some "2020"]), ("B", Series.bools [true])])
      = ("A", "Numeric", get_random_example_tabular 0 (toNumericSeries [some "2020"]))
          :: processTabAux (fun _ => 0) 1 [("B", Series.bools [true])]
          ++ [("A" ++ "_DualText" ++ " (Dual string representation)", "String",
               get_random_example_tabular 0 (Series.obj [some "2020"]))] :=
  ⟨⟨by decide, by decide, by decide, by decide⟩,
    claim_C1_dual_layout ["%Y"] "A" [some "2020"] [("B", Series.bools [true])] (fun _ => 0)
      (by decide) (by decide) (by decide) (by decide) (by decide)⟩

/-- C1 counterexample to the claim as stated: with a dual column A
followed by a plain column B, the companion record is appended at the end
of the report, so the pair is not adjacent (B sits between them), and the
two examples are drawn independently (here the numeric example comes from
row 0 but the companion's from row 1), so they need not coincide. -/
theorem claim_C1_counterexample :
    process_tabular_records (fun k => if k = 2 then 1 else 0)
      (apply_qlik_cloud_inference ["%Y"]
        [("A", Series.obj [some "2020", some "2021"]), ("B", Series.obj [some "x", some "y"])])
      = [("A", "Numeric", PyScalar.pnum 2020 true),
         ("B", "String", PyScalar.pstr "x"),
         ("A_DualText (Dual string representation)", "String", PyScalar.pstr "2021")]
    ∧ PyScalar.pnum 2020 true ≠ PyScalar.pstr "2021" := by
  refine ⟨by decide, by decide⟩

/-- Shared helper: the inference pass on a single boolean-like object
column replaces it by the rewritten boolean column. -/
theorem apply_boolean_single (name : String) (vals : List (Option String))
    (h : is_boolean_series vals = true) :
    apply_qlik_cloud_inference defaultDateFormats [(name, Series.obj vals)]
      = [(name, Series.bools (vals.map pyBoolOfCell))] := by
  have hinfer : inferObjColumn defaultDateFormats name vals
      = ((name, Series.bools (vals.map pyBoolOfCell)), none) := by
    unfold inferObjColumn
    rw [h]
    simp
  unfold apply_qlik_cloud_inference
  show (([] : List (String × Series)) ++ [(inferObjColumn defaultDateFormats name vals).1])
      ++ (([] : List (String × Series)) ++ (inferObjColumn defaultDateFormats name vals).2.toList) = _
  rw [hinfer]
  simp

/-! ## Claim C2: boolean-like columns -/

/-- C2 (amended): a raw textual column passing the boolean membership
test (which strips and lowercases) is classified Boolean and every value
is rewritten to a language boolean — but the rewrite itself lowercases
without stripping, so exactly the values whose lowercased string form is
"true" or "1" become true; whitespace-padded tokens and nulls become
false. -/
theorem claim_C2_boolean_rewrite (name : String) (vals : List (Option String)) (choose : Nat → Nat)
    (hname : pyEndsWith name "_DualText" = false)
    (h : is_boolean_series vals = true) :
    apply_qlik_cloud_inference defaultDateFormats [(name, Series.obj vals)]
      = [(name, Series.bools (vals.map pyBoolOfCell))]
    ∧ process_tabular_records choose
        (apply_qlik_cloud_inference defaultDateFormats [(name, Series.obj vals)])
      = [(name, "Boolean",
          get_random_example_tabular (choose 0) (Series.bools (vals.map pyBoolOfCell)))]
    ∧ pyBoolOfCell (some "TRUE") = true ∧ pyBoolOfCell (some "1") = true
    ∧ pyBoolOfCell (some " true ") = false ∧ pyBoolOfCell none = false := by
  have happ := apply_boolean_single name vals h
  refine ⟨happ, ?_, by decide, by decide, by decide, by decide⟩
  rw [happ]
  show [tabRecord (choose 0) (name, Series.bools (vals.map pyBoolOfCell))] = _
  unfold tabRecord
  rw [hname]
  simp [infer_data_type_for_series]

/-- C2 witness: a concrete boolean-like column. -/
theorem claim_C2_witness :
    (pyEndsWith "Active" "_DualText" = false
      ∧ is_boolean_series [some "True", some "false", some "0", some "1"] = true)
    ∧ apply_qlik_cloud_inference defaultDateFormats
        [("Active", Series.obj [some "True", some "false", some "0", some "1"])]
      = [("Active", Series.bools ([some "True", some "false", some "0", some "1"].map pyBoolOfCell))] :=
  ⟨⟨by decide, by decide⟩,
    (claim_C2_boolean_rewrite "Active" [some "True", some "false", some "0", some "1"]
      (fun _ => 0) (by decide) (by decide)).1⟩

/-- C2 counterexample to the claim as stated: the value " true " passes
the (stripping) boolean membership test, so the column is classified
Boolean, but the non-stripping rewrite maps it to false, not true as a
whitespace-insensitive mapping would. -/
theorem claim_C2_counterexample :
    is_boolean_series [some " true "] = true
    ∧ pyStrip (pyLower " true ") = "true"
    ∧ apply_qlik_cloud_inference defaultDateFormats [("c", Series.obj [some " true "])]
      = [("c", Series.bools [false])] := by
  refine ⟨by decide, by decide, by decide⟩

/-! ## Claim C3: all-null columns -/

/-- C3 (amended): an all-null textual column vacuously passes the boolean
test and is classified Boolean, but the rewrite turns every null into the
boolean false, so for a nonempty column the report's example is the
boolean false rather than the placeholder. -/
theorem claim_C3_all_null (name : String) (n : Nat) (choose : Nat → Nat)
    (hname : pyEndsWith name "_DualText" = false)
    (h : 0 < n) :
    process_tabular_records choose
      (apply_qlik_cloud_inference defaultDateFormats [(name, Series.obj (List.replicate n none))])
      = [(name, "Boolean", PyScalar.pbool false)] := by
  have hb : is_boolean_series (List.replicate n none) = true := by
    unfold is_boolean_series nonNullVals
    rw [filterMap_id_replicate_none]
    rfl
  rw [apply_boolean_single name (List.replicate n none) hb]
  have hmap : (List.replicate n (none : Option String)).map pyBoolOfCell
      = List.replicate n false := by
    rw [List.map_replicate]
    rfl
  rw [hmap]
  have hex : get_random_example_tabular (choose 0) (Series.bools (List.replicate n false))
      = PyScalar.pbool false := by
    have h1 : seriesNonNull (Series.bools (List.replicate n false))
        = List.replicate n (PyScalar.pbool false) := by
      show (List.replicate n false).map PyScalar.pbool = _
      rw [List.map_replicate]
    simp only [get_random_example_tabular, h1]
    have hne : (List.replicate n (PyScalar.pbool false)).isEmpty = false := by
      cases n with
      | zero => omega
      | succ k => rfl
    have hlt : choose 0 % n < n := Nat.mod_lt _ h
    simp [hne, List.length_replicate, List.getD_eq_getElem?_getD, List.getElem?_replicate, hlt]
  show [tabRecord (choose 0) (name, Series.bools (List.replicate n false))] = _
  simp [tabRecord, hname, hex, infer_data_type_for_series]

/-- C3 witness: two nulls. -/
theorem claim_C3_witness :
    (pyEndsWith "c" "_DualText" = false ∧ 0 < 2)
    ∧ process_tabular_records (fun _ => 0)
        (apply_qlik_cloud_inference defaultDateFormats [("c", Series.obj (List.replicate 2 none))])
      = [("c", "Boolean", PyScalar.pbool false)] :=
  ⟨⟨by decide, by decide⟩, claim_C3_all_null "c" 2 (fun _ => 0) (by decide) (by decide)⟩

/-- C3 counterexample to the claim as stated: the all-null column is
indeed classified Boolean, but its example is the rewritten boolean
false, not the literal placeholder. -/
theorem claim_C3_counterexample :
    process_tabular_records (fun _ => 0)
      (apply_qlik_cloud_inference defaultDateFormats [("c", Series.obj [none, none])])
      = [("c", "Boolean", PyScalar.pbool false)]
    ∧ PyScalar.pbool false ≠ PyScalar.pstr "N/A" := by
  refine ⟨by decide, by decide⟩

/-! ## Claim C4: top-level array first-wins deduplication -/

/-- C4 (amended): for a top-level array whose records all have
delimiter-free paths, the report equals the first-wins merge of the
per-element records by path (keeping the first occurrence's type and
example), and no path appears twice.  The merge is keyed on the rendered
line's text before its first semicolon, so a path containing the
delimiter is keyed only by its prefix and can collide with another path
sharing that prefix. -/
theorem claim_C4_first_wins (items : PyList)
    (hclean : ∀ r ∈ flattenAll items, ';' ∉ r.1.toList) :
    process_semi_structured_data (.vlist items)
      = (firstWinsByPath (flattenAll items)).map renderRec
    ∧ ((firstWinsByPath (flattenAll items)).map (fun r => r.1)).Nodup := by
  constructor
  · show (dedupFold items []).map renderRec = _
    rw [dedupFold_eq_fw items hclean []]
    rfl
  · exact foldl_fwStep_nodup (flattenAll items) [] (by simp)

/-- C4 witness: the spec's own example, three one-field records. -/
theorem claim_C4_witness :
    (∀ r ∈ flattenAll (.cons (.vdict (.cons "x" (.vint 1) .nil))
        (.cons (.vdict (.cons "x" (.vint 2) .nil))
          (.cons (.vdict (.cons "y" (.vint 3) .nil)) .nil))), ';' ∉ r.1.toList)
    ∧ process_semi_structured_data
        (.vlist (.cons (.vdict (.cons "x" (.vint 1) .nil))
          (.cons (.vdict (.cons "x" (.vint 2) .nil))
            (.cons (.vdict (.cons "y" (.vint 3) .nil)) .nil))))
      = (firstWinsByPath (flattenAll (.cons (.vdict (.cons "x" (.vint 1) .nil))
          (.cons (.vdict (.cons "x" (.vint 2) .nil))
            (.cons (.vdict (.cons "y" (.vint 3) .nil)) .nil))))).map renderRec :=
  ⟨by decide,
    (claim_C4_first_wins (.cons (.vdict (.cons "x" (.vint 1) .nil))
      (.cons (.vdict (.cons "x" (.vint 2) .nil))
        (.cons (.vdict (.cons "y" (.vint 3) .nil)) .nil))) (by decide)).1⟩

/-- C4 counterexample to the claim as stated: two elements with distinct
paths a;x and a;y.  Both lines are keyed by the prefix "a", so the second
path's first (and only) occurrence is discarded entirely instead of being
kept: merging is not by path once a path contains the delimiter. -/
theorem claim_C4_counterexample :
    process_semi_structured_data
      (.vlist (.cons (.vdict (.cons "a;x" (.vint 1) .nil))
        (.cons (.vdict (.cons "a;y" (.vint 2) .nil)) .nil)))
      = ["a;x;Numeric;1"]
    ∧ (flattenAll (.cons (.vdict (.cons "a;x" (.vint 1) .nil))
        (.cons (.vdict (.cons "a;y" (.vint 2) .nil)) .nil))).map (fun r => r.1)
      = ["a;x", "a;y"] := by
  refine ⟨by decide, by decide⟩

/-! ## Claim C5: depth-first pre-order flattening -/

/-- C5 (confirmed): the flattener walks depth-first in pre-order — dict
members in insertion order under dotted paths, array elements in index
order under bracketed paths — emitting exactly one record per scalar
leaf; the line output is the record-level flattening rendered, and the
spec's example produces exactly the three expected lines in order. -/
theorem claim_C5_preorder :
    (∀ (v : PyValue) (p : String),
      process_semi_structured v p = (flattenSpecRecords v p).map renderRec)
    ∧ (∀ (v : PyValue) (p : String),
      (process_semi_structured v p).length = (leaves v).length)
    ∧ process_semi_structured
        (.vdict (.cons "a" (.vdict (.cons "b" (.vint 1)
          (.cons "c" (.vlist (.cons (.vint 2) (.cons (.vint 3) .nil))) .nil))) .nil)) ""
      = ["a.b;Numeric;1", "a.c[0];Numeric;2", "a.c[1];Numeric;3"] := by
  refine ⟨ps_eq_render, ?_, by decide⟩
  intro v p
  rw [ps_eq_render v p, List.length_map, flatten_length v p]

/-! ## Claim C6: the delimiter inside an example -/

/-- C6 (amended): a rendered line whose path and type are delimiter-free
splits (from the left, limit two) into exactly the path, the type, and
the example recovered verbatim, even when the example contains the
delimiter, and such lines also survive the top-level-array dedup intact;
the type labels never contain the delimiter, but when the path itself
contains one, the third segment absorbs part of the line instead. -/
theorem claim_C6_delimiter (p d e : String) (hp : ';' ∉ p.toList) (hd : ';' ∉ d.toList) :
    pySplit2 (mkLine p d e) = (p, d, e)
    ∧ (∀ v, ';' ∉ (infer_data_type v).toList)
    ∧ process_semi_structured_data
        (.vlist (.cons (.vdict (.cons "p" (.vstr "a;b") .nil)) .nil)) = ["p;String;a;b"] :=
  ⟨pySplit2_mkLine p d e hp hd, infer_data_type_no_semi, by decide⟩

/-- C6 witness: a record whose example contains the delimiter. -/
theorem claim_C6_witness :
    (';' ∉ "p".toList ∧ ';' ∉ "String".toList)
    ∧ pySplit2 (mkLine "p" "String" "a;b") = ("p", "String", "a;b") :=
  ⟨⟨by decide, by decide⟩, (claim_C6_delimiter "p" "String" "a;b" (by decide) (by decide)).1⟩

/-- C6 counterexample to the claim as stated: a record at path a;b with
example x;y renders to a line whose third split segment is String;x;y,
not the example — the universal claim fails when the path itself holds
the delimiter. -/
theorem claim_C6_counterexample :
    process_semi_structured (.vdict (.cons "a;b" (.vstr "x;y") .nil)) "" = ["a;b;String;x;y"]
    ∧ (pySplit2 "a;b;String;x;y").2.2 = "String;x;y"
    ∧ "String;x;y" ≠ "x;y" := by
  refine ⟨by decide, by decide, by decide⟩

/-! ## Claim C7: report invariants -/

/-- C7 (amended): within one nested report, every record's example is the
textual form of a scalar leaf actually occurring in the input (the
placeholder for a null leaf), and the deduplicated top-level-array report
has pairwise-distinct merge keys.  Path uniqueness does not hold for
arbitrary nested inputs. -/
theorem claim_C7_invariants :
    (∀ items : PyList, ((dedupFold items []).map (fun r => r.1)).Nodup)
    ∧ (∀ (v : PyValue) (p : String) (r : String × String × String),
        r ∈ flattenSpecRecords v p → ∃ s, s ∈ leaves v ∧ r.2.2 = leafExample s) := by
  constructor
  · intro items
    exact dedupFold_nodup items [] (by simp)
  · exact flatten_example_leaf

/-- C7 witness: the single record of a one-field object carries the
observed leaf's text as its example. -/
theorem claim_C7_witness :
    (("x", "String", "hi") ∈ flattenSpecRecords (.vdict (.cons "x" (.vstr "hi") .nil)) "")
    ∧ ∃ s, s ∈ leaves (.vdict (.cons "x" (.vstr "hi") .nil))
        ∧ ("x", "String", "hi").2.2 = leafExample s :=
  ⟨by decide, claim_C7_invariants.2 (.vdict (.cons "x" (.vstr "hi") .nil)) ""
    ("x", "String", "hi") (by decide)⟩

/-- C7 counterexample to the claim as stated: a dict with keys "a" (whose
member holds key "b") and the literal key "a.b" produces two records with
the identical path a.b in one report, so path uniqueness fails. -/
theorem claim_C7_counterexample :
    process_semi_structured_data
      (.vdict (.cons "a" (.vdict (.cons "b" (.vint 1) .nil)) (.cons "a.b" (.vint 2) .nil)))
      = ["a.b;Numeric;1", "a.b;Numeric;2"]
    ∧ (flattenSpecRecords
        (.vdict (.cons "a" (.vdict (.cons "b" (.vint 1) .nil)) (.cons "a.b" (.vint 2) .nil))) "").map
          (fun r => r.1)
      = ["a.b", "a.b"]
    ∧ ¬ (["a.b", "a.b"] : List String).Nodup := by
  refine ⟨by decide, by decide, by decide⟩

/-! ## Claim C8: scalar type inference -/

/-- C8 (amended): infer_data_type follows the stated precedence —
booleans first (they also pass the numeric isinstance test, since bool is
a subclass of int), then numbers, text, sequences, mappings, and Unknown
for everything else including null — but a sequence is labelled "List",
not "Array". -/
theorem claim_C8_scalar_inference :
    (∀ b, infer_data_type (.vbool b) = "Boolean")
    ∧ isinstance_int_or_float (.vbool true) = true
    ∧ (∀ n, infer_data_type (.vint n) = "Numeric")
    ∧ (∀ s, infer_data_type (.vstr s) = "String")
    ∧ (∀ items, infer_data_type (.vlist items) = "List")
    ∧ (∀ fields, infer_data_type (.vdict fields) = "Object")
    ∧ infer_data_type .vnone = "Unknown"
    ∧ (∀ r, infer_data_type (.vother r) = "Unknown") :=
  ⟨fun _ => rfl, rfl, fun _ => rfl, fun _ => rfl, fun _ => rfl, fun _ => rfl, rfl, fun _ => rfl⟩

/-- C8 counterexample to the claim as stated: a sequence is labelled
"List", which is neither "Array" nor any member of the spec's closed
SemanticType label set. -/
theorem claim_C8_counterexample :
    infer_data_type (.vlist .nil) = "List"
    ∧ "List" ≠ "Array"
    ∧ ("List" : String) ∉ ["Boolean", "Numeric", "Integer", "Float", "Date/Time", "String",
        "Array", "Object", "Unknown", "DualCompanion"] := by
  refine ⟨by decide, by decide, by decide⟩

/-! ## Claim C9: behaviour on unrecognised input -/

/-- C9 (amended): the engine never fails fast on an input that is neither
a column sequence nor a recognisable nested node — it treats the value as
a scalar leaf and emits a nonempty report classifying it Unknown with its
textual form as example. -/
theorem claim_C9_no_fail_fast (r : String) :
    process_semi_structured_data (.vother r) = [mkLine "" "Unknown" r]
    ∧ process_semi_structured_data (.vother r) ≠ [] := by
  refine ⟨rfl, ?_⟩
  rw [show process_semi_structured_data (.vother r) = [mkLine "" "Unknown" r] from rfl]
  exact List.cons_ne_nil _ _

/-- C9 counterexample to the claim as stated: an unrecognised object is
not rejected; the engine emits a report line for it. -/
theorem claim_C9_counterexample :
    process_semi_structured_data (.vother "<Foo object>") = [";Unknown;<Foo object>"]
    ∧ [";Unknown;<Foo object>"] ≠ ([] : List String) := by
  refine ⟨by decide, by decide⟩

/-! ## Claim C10: empty containers -/

/-- C10 (confirmed): an empty object or empty array node emits no record
at all, at the root (directly or through the dedup path) and at any
nested position — as a dict member or as an array element, where it
still advances the element index. -/
theorem claim_C10_empty_containers :
    (∀ p, process_semi_structured (.vdict .nil) p = [])
    ∧ (∀ p, process_semi_structured (.vlist .nil) p = [])
    ∧ process_semi_structured_data (.vdict .nil) = []
    ∧ process_semi_structured_data (.vlist .nil) = []
    ∧ (∀ p k fields, process_semi_structured (.vdict (.cons k (.vdict .nil) fields)) p
        = process_semi_structured (.vdict fields) p)
    ∧ (∀ p k fields, process_semi_structured (.vdict (.cons k (.vlist .nil) fields)) p
        = process_semi_structured (.vdict fields) p)
    ∧ (∀ p i items, psList (.cons (.vdict .nil) items) i p = psList items (i + 1) p)
    ∧ (∀ p i items, psList (.cons (.vlist .nil) items) i p = psList items (i + 1) p) :=
  ⟨fun _ => rfl, fun _ => rfl, rfl, rfl, fun _ _ _ => rfl, fun _ _ _ => rfl,
    fun _ _ _ => rfl, fun _ _ _ => rfl⟩
